import Mathlib

/-!
Shallow embedding of `src/main.py` (Real-Time AI Research System with
WebSockets) and proofs of the specification claims about it.

Modelling conventions:
* A websocket `send_text(json.dumps({...}))` is modelled by a `Msg`
  constructor carrying the same fields; a send may raise an exception,
  which is modelled by a failure schedule `Nat → Option String` giving,
  for the k-th send of a task, `some e` when that send raises an
  exception whose `str` is `e`.
* The LLM call `self.agent.invoke({"input": query})` is modelled by an
  oracle `String → Except String String`: `Except.ok out` is a normal
  return with `result["output"] = out`, `Except.error e` is a raised
  exception with `str(e) = e`.
* Python exception propagation is `Except.error`; a caught exception is
  consumed by the model of the `except` block exactly where the source
  catches it.
* Executions produce a `List Event` trace recording, in order, the
  websocket messages sent, the LLM invocations performed, and the return
  of `asyncio.gather` (the join).  The interleaving of the three
  concurrently running phase-1 tasks is an arbitrary parameter
  (`List Lane`), so theorems about the trace hold for every interleaving.
* Dictionaries (`active_sessions`, per-session `results`) are total
  functions into `Option`, updated with `Function.update`.
-/

/-- The JSON messages the server sends over the websocket, one constructor
per `websocket.send_text(json.dumps({...}))` shape in `src/main.py`. -/
inductive Msg : Type
  | agentStatus (agent_id status message : String)
  | researchResult (agent_id agent_name result : String)
  | agentError (agent_id error : String)
  | researchStarted (session_id topic message : String)
  | researchCompleted (session_id message : String)
  | researchError (session_id error : String)
  | errorReply (message : String)
  | pong (timestamp : String)
deriving DecidableEq, Repr

/-- Observable events of a research run: a websocket send, an
`AgentExecutor.invoke` LLM call (recorded with the agent name and the
query), and the return of `asyncio.gather` over the phase-1 tasks. -/
inductive Event : Type
  | send (m : Msg)
  | invoke (agent_name : String) (query : String)
  | join
deriving DecidableEq, Repr

/-- Whether an event is an LLM invocation. -/
def isInvoke : Event → Bool
  | Event.invoke _ _ => true
  | _ => false

/-- Whether an event is a websocket send. -/
def isSend : Event → Bool
  | Event.send _ => true
  | _ => false

/-- The `except Exception as e` block of `research_async`
(src/main.py lines 88-95): build `error_msg`, attempt to send the
`agent_error` message (the k-th send of this call), and return the error
string; if that send itself raises, the exception propagates out of
`research_async`. `evs` is the trace accumulated in the `try` block. -/
def exceptBlock (name : String) (sendFail : Nat → Option String) (k : Nat)
    (evs : List Event) (agent_id : String) (e : String) :
    List Event × Except String String :=
  let error_msg := "Error in " ++ name ++ ": " ++ e
  match sendFail k with
  | some e2 => (evs, Except.error e2)
  | none => (evs ++ [Event.send (Msg.agentError agent_id error_msg)], Except.ok error_msg)

/-- Model of `RealTimeResearchAgent.research_async` (src/main.py lines
53-95): send the "researching" status (send 0), perform the LLM call,
send the result (send 1) and the "completed" status (send 2), returning
`result["output"]`. Any exception raised in the `try` block is handled
by `exceptBlock`. The returned pair is the trace of events and either
the returned string (`Except.ok`) or a propagated exception
(`Except.error`). -/
def research_async (name : String) (oracle : String → Except String String)
    (sendFail : Nat → Option String) (query : String) (agent_id : String) :
    List Event × Except String String :=
  match sendFail 0 with
  | some e => exceptBlock name sendFail 1 [] agent_id e
  | none =>
    let t0 := [Event.send (Msg.agentStatus agent_id "researching" (name ++ " is researching...")),
               Event.invoke name query]
    match oracle query with
    | Except.error e => exceptBlock name sendFail 1 t0 agent_id e
    | Except.ok out =>
      match sendFail 1 with
      | some e => exceptBlock name sendFail 2 t0 agent_id e
      | none =>
        let t1 := t0 ++ [Event.send (Msg.researchResult agent_id name out)]
        match sendFail 2 with
        | some e => exceptBlock name sendFail 3 t1 agent_id e
        | none =>
          (t1 ++ [Event.send (Msg.agentStatus agent_id "completed" (name ++ " completed research"))],
           Except.ok out)

/-- The system prompt template of `RealTimeResearchAgent._create_agent`
(src/main.py lines 37-42), an f-string over the agent name and role,
with the exact whitespace of the Python triple-quoted literal. -/
def system_message (name role : String) : String :=
  "You are " ++ name ++ ", a specialized research agent.\n        Role: " ++ role ++
  "\n        \n        Provide concise, accurate research findings with clear sources.\n        Focus on actionable insights and current information.\n        Keep responses under 500 words for real-time delivery."

/-- The static data of a `RealTimeResearchAgent` (src/main.py lines 28-51):
its name, its role, and the names of the tools it is given. The LangChain
executor itself is abstracted into the LLM oracle of `Env`. -/
structure RealTimeResearchAgent : Type where
  name : String
  role : String
  tools : List String
deriving DecidableEq, Repr

/-- The system prompt of an agent, as built by `_create_agent`. -/
def RealTimeResearchAgent.systemMessage (a : RealTimeResearchAgent) : String :=
  system_message a.name a.role

/-- Model of `RealTimeResearchTeam._create_agents` (src/main.py lines
107-148): the dict of the four agents, in insertion order, with the
names, roles and tool lists from the source. (`tavily_search` stands
for the Tavily tool or its fallback web-search stub.) -/
def _create_agents : List (String × RealTimeResearchAgent) :=
  [("researcher", { name := "Primary Researcher",
                    role := "Gather comprehensive background information",
                    tools := ["wikipedia", "tavily_search"] }),
   ("analyst", { name := "Data Analyst",
                 role := "Analyze trends and statistics",
                 tools := ["tavily_search"] }),
   ("news_tracker", { name := "News Tracker",
                      role := "Find recent developments and news",
                      tools := ["tavily_search"] }),
   ("synthesizer", { name := "Information Synthesizer",
                     role := "Combine and synthesize all findings",
                     tools := [] })]

/-- Dict lookup `self.agents[agent_id]`. -/
def agentOf (agent_id : String) : RealTimeResearchAgent :=
  (List.lookup agent_id _create_agents).getD { name := "", role := "", tools := [] }

/-- One entry of `active_sessions` (src/main.py lines 154-159): the dict
created at the start of `conduct_realtime_research`. `datetime.now()` is
abstracted into a numeric timestamp; `results` is the per-agent results
dict. -/
structure Session : Type where
  topic : String
  focus : String
  start_time : Nat
  results : String → Option String

/-- Lane labels for the three phase-1 tasks, used to describe an
arbitrary interleaving of their event traces. -/
inductive Lane : Type
  | researcher
  | analyst
  | news
deriving DecidableEq, Repr

/-- Merge three traces according to a schedule: each schedule entry takes
the next event of the named lane (skipping exhausted lanes); leftovers
are appended at the end. Every interleaving of three sequences arises
from some schedule. -/
def interleave3 {α : Type} : List Lane → List α → List α → List α → List α
  | [], xs, ys, zs => xs ++ ys ++ zs
  | Lane.researcher :: s, [], ys, zs => interleave3 s [] ys zs
  | Lane.researcher :: s, x :: xs, ys, zs => x :: interleave3 s xs ys zs
  | Lane.analyst :: s, xs, [], zs => interleave3 s xs [] zs
  | Lane.analyst :: s, xs, y :: ys, zs => y :: interleave3 s xs ys zs
  | Lane.news :: s, xs, ys, [] => interleave3 s xs ys []
  | Lane.news :: s, xs, ys, z :: zs => z :: interleave3 s xs ys zs

/-- The external environment of one `conduct_realtime_research` run:
the LLM oracle for each agent id, the websocket send-failure schedule of
each agent task, the send-failure schedule of the orchestrator's own
sends, and the interleaving of the three phase-1 task traces. -/
structure Env : Type where
  oracle : String → String → Except String String
  taskSendFail : String → Nat → Option String
  mainSendFail : Nat → Option String
  sched : List Lane

/-- The environment in which every websocket send succeeds (the websocket
stays connected and healthy for the whole run). -/
def Env.noSendFail (env : Env) : Prop :=
  (∀ k, env.mainSendFail k = none) ∧ (∀ aid k, env.taskSendFail aid k = none)

/-- The `research_tasks` dict (src/main.py lines 170-174): the phase-1
query for each of the three research agents. In Python,
`{focus if focus else ''}` is `focus` when it is non-empty (truthy) and
the empty string otherwise. -/
def research_tasks (topic focus : String) : List (String × String) :=
  [("researcher", "Research comprehensive background about " ++ topic ++ ". " ++
      (if focus = "" then "" else focus)),
   ("analyst", "Analyze data, trends, and statistics for " ++ topic ++ ". " ++
      (if focus = "" then "" else focus)),
   ("news_tracker", "Find recent news and developments about " ++ topic ++ ". " ++
      (if focus = "" then "" else focus))]

/-- The phase-1 task of one research agent (src/main.py lines 177-182):
`self.agents[agent_id].research_async(query, websocket, agent_id)` with
the query from `research_tasks`. -/
def runTask (env : Env) (topic focus agent_id : String) :
    List Event × Except String String :=
  research_async (agentOf agent_id).name (env.oracle agent_id)
    (env.taskSendFail agent_id)
    ((List.lookup agent_id (research_tasks topic focus)).getD "") agent_id

/-- One step of the result-storing loop (src/main.py lines 188-190):
store the gathered value under `agent_id` unless it is an `Exception`
instance. -/
def storeResult (results : String → Option String) (agent_id : String)
    (r : Except String String) : String → Option String :=
  match r with
  | Except.ok v => Function.update results agent_id (some v)
  | Except.error _ => results

/-- The session's `results` dict after the storing loop has run over the
three gathered phase-1 outcomes, starting from the empty dict of the
fresh session. -/
def storedResults (env : Env) (topic focus : String) : String → Option String :=
  storeResult (storeResult (storeResult (fun _ => none)
    "researcher" (runTask env topic focus "researcher").2)
    "analyst" (runTask env topic focus "analyst").2)
    "news_tracker" (runTask env topic focus "news_tracker").2

/-- The `synthesis_query` f-string template (src/main.py lines 193-201),
with the exact whitespace of the Python triple-quoted literal, as a
function of the topic and the three interpolated values. -/
def synthesis_query (topic background analysis news : String) : String :=
  "\n            Based on research about " ++ topic ++
  ", synthesize these findings:\n            \n            Background: " ++ background ++
  "\n            Analysis: " ++ analysis ++
  "\n            News: " ++ news ++
  "\n            \n            Provide a comprehensive summary combining all insights.\n            "

/-- The synthesis query actually built by `conduct_realtime_research`:
`results.get(agent_id, "No data")` for each of the three phase-1 agents,
interpolated into `synthesis_query`. -/
def synthQuery (env : Env) (topic focus : String) : String :=
  synthesis_query topic
    ((storedResults env topic focus "researcher").getD "No data")
    ((storedResults env topic focus "analyst").getD "No data")
    ((storedResults env topic focus "news_tracker").getD "No data")

/-- The phase-2 synthesis call (src/main.py lines 203-205):
`self.agents["synthesizer"].research_async(synthesis_query, websocket,
"synthesizer")`. -/
def synthTask (env : Env) (topic focus : String) :
    List Event × Except String String :=
  research_async (agentOf "synthesizer").name (env.oracle "synthesizer")
    (env.taskSendFail "synthesizer") (synthQuery env topic focus) "synthesizer"

/-- The `except Exception as e` block of `conduct_realtime_research`
(src/main.py lines 216-222): log and attempt to send the
`research_error` message (the k-th send of the orchestrator). If that
send itself raises, the exception escapes the background task; either
way the run ends with the accumulated trace and sessions map. -/
def mainExcept (env : Env) (session_id : String) (k : Nat) (evs : List Event)
    (sessions : String → Option Session) (e : String) :
    List Event × (String → Option Session) :=
  match env.mainSendFail k with
  | some _ => (evs, sessions)
  | none => (evs ++ [Event.send (Msg.researchError session_id e)], sessions)

/-- Model of `RealTimeResearchTeam.conduct_realtime_research`
(src/main.py lines 150-222): initialise the session entry, send
`research_started` (orchestrator send 0), run the three phase-1 tasks
concurrently (their traces interleaved by `env.sched`), join via
`asyncio.gather(..., return_exceptions=True)`, store the non-exception
results, run the synthesis call, store its result, and send
`research_completed` (orchestrator send 1); any exception raised in the
`try` block is handled by `mainExcept`. Returns the event trace and the
updated `active_sessions` map. -/
def conduct_realtime_research (env : Env) (topic focus : String)
    (sessions : String → Option Session) (session_id : String) (now : Nat) :
    List Event × (String → Option Session) :=
  let s0 : Session := { topic := topic, focus := focus, start_time := now,
                        results := fun _ => none }
  let sessions1 := Function.update sessions session_id (some s0)
  match env.mainSendFail 0 with
  | some e => mainExcept env session_id 1 [] sessions1 e
  | none =>
    let ev0 := Event.send (Msg.researchStarted session_id topic "Research team activated")
    let phase1 := interleave3 env.sched (runTask env topic focus "researcher").1
      (runTask env topic focus "analyst").1 (runTask env topic focus "news_tracker").1
    let sessions2 := Function.update sessions1 session_id
      (some { s0 with results := storedResults env topic focus })
    let base := ev0 :: phase1 ++ Event.join :: (synthTask env topic focus).1
    match (synthTask env topic focus).2 with
    | Except.error e => mainExcept env session_id 1 base sessions2 e
    | Except.ok v =>
      let sessions3 := Function.update sessions2 session_id
        (some { s0 with results :=
          Function.update (storedResults env topic focus) "synthesizer" (some v) })
      match env.mainSendFail 1 with
      | some e => mainExcept env session_id 2 base sessions3 e
      | none =>
        (base ++ [Event.send (Msg.researchCompleted session_id "All research completed successfully")],
         sessions3)

/-- An incoming websocket message after `json.loads` (src/main.py lines
238-243): its `type` field and the optional `topic` and `focus` fields
(`none` models an absent key, so `message.get("topic", "")` is
`(m.topic).getD ""`). -/
structure InMsg : Type where
  type : String
  topic : Option String
  focus : Option String
deriving DecidableEq, Repr

/-- Model of one iteration of the receive loop of `websocket_endpoint`
(src/main.py lines 236-263): given the current `active_sessions` map and
a parsed incoming message, return the messages sent back, the research
task started (`some (topic, focus)` when
`conduct_realtime_research(topic, focus, ...)` is scheduled with
`asyncio.create_task`, `none` otherwise), and the resulting
`active_sessions` map. -/
def websocket_handle (sessions : String → Option Session) (m : InMsg)
    (timestamp : String) :
    List Msg × Option (String × String) × (String → Option Session) :=
  if m.type = "start_research" then
    let topic := (m.topic).getD ""
    let focus := (m.focus).getD ""
    if topic = "" then
      ([Msg.errorReply "Topic is required"], none, sessions)
    else
      ([], some (topic, focus), sessions)
  else if m.type = "ping" then
    ([Msg.pong timestamp], none, sessions)
  else
    ([], none, sessions)

/-- Model of the `WebSocketDisconnect` handler of `websocket_endpoint`
(src/main.py lines 265-268): delete the connection's `session_id` from
`active_sessions` if it is present. -/
def handle_disconnect (sessions : String → Option Session)
    (session_id : String) : String → Option Session :=
  if (sessions session_id).isSome then
    Function.update sessions session_id none
  else
    sessions

/-- The kinds of user interface through which the prototypes are exposed. -/
inductive UIKind : Type
  | streamlitForm
  | fastapiWebSocket
  | progressBar
deriving DecidableEq, Repr

/-- The FastAPI application object (src/main.py line 225). -/
structure FastAPIApp : Type where
  title : String
deriving DecidableEq, Repr

/-- Model of `app = FastAPI(title="Real-Time AI Research System")`
(src/main.py line 225), the application of the WebSocket prototype. -/
def app : FastAPIApp :=
  { title := "Real-Time AI Research System" }

/-- Modelled from the spec: the repository's three near-duplicate
prototypes and their user interfaces. Only the FastAPI WebSocket
prototype (src/main.py, the `app` above) is present under src/; the
Streamlit web-form prototype and the progress-bar prototype are
described by the spec but their source files are not under src/. -/
def repository_prototypes : List UIKind :=
  [UIKind.streamlitForm, UIKind.fastapiWebSocket, UIKind.progressBar]

/-- A healthy concrete environment: every LLM call returns "out" and
every websocket send succeeds. -/
def testEnv : Env :=
  { oracle := fun _ _ => Except.ok "out",
    taskSendFail := fun _ _ => none,
    mainSendFail := fun _ => none,
    sched := [] }

/-- A concrete environment whose researcher task has a broken websocket:
every send performed by the "researcher" task raises, so that task ends
in a propagated exception; everything else succeeds. -/
def testEnvErr : Env :=
  { oracle := fun _ _ => Except.ok "out",
    taskSendFail := fun aid _ => if aid = "researcher" then some "ws down" else none,
    mainSendFail := fun _ => none,
    sched := [] }

/-- The empty `active_sessions` map. -/
def noSessions : String → Option Session := fun _ => none

/-- A concrete `active_sessions` map with an entry under every key. -/
def someSessions : String → Option Session :=
  fun _ => some { topic := "t", focus := "", start_time := 0, results := fun _ => none }

/-- The temporal shape claimed of a research run trace: it splits at a
unique join; each of the three phase-1 agents performs an LLM invocation
before the join; no synthesizer invocation occurs before the join; and
exactly one LLM call — the synthesizer's, on the synthesis query —
occurs after the join. -/
def JoinBeforeSynthesis (env : Env) (topic focus : String)
    (sessions : String → Option Session) (session_id : String) (now : Nat) : Prop :=
  ∃ pre post,
    (conduct_realtime_research env topic focus sessions session_id now).1 =
      pre ++ Event.join :: post ∧
    Event.join ∉ pre ∧ Event.join ∉ post ∧
    (∃ q, Event.invoke "Primary Researcher" q ∈ pre) ∧
    (∃ q, Event.invoke "Data Analyst" q ∈ pre) ∧
    (∃ q, Event.invoke "News Tracker" q ∈ pre) ∧
    (∀ q, Event.invoke "Information Synthesizer" q ∉ pre) ∧
    List.filter isInvoke post =
      [Event.invoke "Information Synthesizer" (synthQuery env topic focus)]

/-- The synthesis-step shape claimed of a research run trace: before the
join there are exactly three LLM calls, and after it exactly one, whose
input prompt is the `synthesis_query` template instantiated with the
stored results of the three phase-1 agents, `"No data"` standing in for
any agent absent from the session's results. -/
def SingleSynthesisPrompt (env : Env) (topic focus : String)
    (sessions : String → Option Session) (session_id : String) (now : Nat) : Prop :=
  ∃ pre post,
    (conduct_realtime_research env topic focus sessions session_id now).1 =
      pre ++ Event.join :: post ∧
    List.countP isInvoke pre = 3 ∧
    List.filter isInvoke post =
      [Event.invoke "Information Synthesizer"
        (synthesis_query topic
          ((storedResults env topic focus "researcher").getD "No data")
          ((storedResults env topic focus "analyst").getD "No data")
          ((storedResults env topic focus "news_tracker").getD "No data"))]

/-! Helper lemmas. -/

/-- Membership in an interleaving is membership in one of the lanes. -/
theorem interleave3_mem {α : Type} (s : List Lane) (a b c : List α) (x : α) :
    x ∈ interleave3 s a b c ↔ x ∈ a ∨ x ∈ b ∨ x ∈ c := by
  induction s generalizing a b c with
  | nil => simp [interleave3]
  | cons l s ih =>
    cases l with
    | researcher =>
      cases a with
      | nil => simp [interleave3, ih]
      | cons x0 a => simp [interleave3, ih]; tauto
    | analyst =>
      cases b with
      | nil => simp [interleave3, ih]
      | cons y0 b => simp [interleave3, ih]; tauto
    | news =>
      cases c with
      | nil => simp [interleave3, ih]
      | cons z0 c => simp [interleave3, ih]; tauto

/-- Counting over an interleaving adds the per-lane counts. -/
theorem interleave3_countP {α : Type} (p : α → Bool) (s : List Lane)
    (a b c : List α) :
    List.countP p (interleave3 s a b c) =
      List.countP p a + List.countP p b + List.countP p c := by
  induction s generalizing a b c with
  | nil => simp [interleave3, List.countP_append]; omega
  | cons l s ih =>
    cases l with
    | researcher =>
      cases a with
      | nil => simpa [interleave3] using ih [] b c
      | cons x0 a => simp [interleave3, ih, List.countP_cons]; omega
    | analyst =>
      cases b with
      | nil => simpa [interleave3] using ih a [] c
      | cons y0 b => simp [interleave3, ih, List.countP_cons]; omega
    | news =>
      cases c with
      | nil => simpa [interleave3] using ih a b []
      | cons z0 c => simp [interleave3, ih, List.countP_cons]; omega

/-- Boolean form: every event in a `research_async` trace is a websocket
send or the single LLM invocation of that call. -/
theorem research_async_events_all (name : String)
    (oracle : String → Except String String) (sf : Nat → Option String)
    (q aid : String) :
    ((research_async name oracle sf q aid).1.all
      (fun e => isSend e || e == Event.invoke name q)) = true := by
  unfold research_async exceptBlock
  rcases h0 : sf 0 with _ | e0 <;> rcases h1 : sf 1 with _ | e1 <;>
    rcases h2 : sf 2 with _ | e2 <;> rcases h3 : sf 3 with _ | e3 <;>
    rcases hq : oracle q with eq | v <;> simp [isSend]

/-- Every event in a `research_async` trace is a websocket send or the
single LLM invocation of that call. -/
theorem research_async_events (name : String)
    (oracle : String → Except String String) (sf : Nat → Option String)
    (q aid : String) :
    ∀ e ∈ (research_async name oracle sf q aid).1,
      isSend e = true ∨ e = Event.invoke name q := by
  intro e he
  have h := research_async_events_all name oracle sf q aid
  rw [List.all_eq_true] at h
  simpa using h e he

/-- When every websocket send of the call succeeds, `research_async`
performs exactly one LLM invocation (with its name and query) and
returns normally (never propagates an exception). -/
theorem research_async_noFail (name : String)
    (oracle : String → Except String String) (sf : Nat → Option String)
    (q aid : String) (h : ∀ k, sf k = none) :
    List.filter isInvoke (research_async name oracle sf q aid).1 =
      [Event.invoke name q] ∧
    ∃ v, (research_async name oracle sf q aid).2 = Except.ok v := by
  rcases hq : oracle q with eq | v <;>
    simp [research_async, exceptBlock, h, hq, isInvoke, List.filter]

/-- The LLM invocation of a `research_async` call belongs to its trace
when the initial status send succeeds. -/
theorem research_async_invoke_mem (name : String)
    (oracle : String → Except String String) (sf : Nat → Option String)
    (q aid : String) (h : ∀ k, sf k = none) :
    Event.invoke name q ∈ (research_async name oracle sf q aid).1 := by
  have hf := (research_async_noFail name oracle sf q aid h).1
  have : Event.invoke name q ∈
      List.filter isInvoke (research_async name oracle sf q aid).1 := by
    rw [hf]; exact List.mem_singleton.mpr rfl
  exact List.mem_of_mem_filter this

/-- The sessions map returned by `mainExcept` is its argument. -/
theorem mainExcept_snd (env : Env) (session_id : String) (k : Nat)
    (evs : List Event) (sessions : String → Option Session) (e : String) :
    (mainExcept env session_id k evs sessions e).2 = sessions := by
  unfold mainExcept
  cases env.mainSendFail k <;> rfl

/-- The trace returned by `mainExcept` does not depend on the sessions
map. -/
theorem mainExcept_fst (env : Env) (session_id : String) (k : Nat)
    (evs : List Event) (sessions sessions2 : String → Option Session)
    (e : String) :
    (mainExcept env session_id k evs sessions e).1 =
      (mainExcept env session_id k evs sessions2 e).1 := by
  unfold mainExcept
  cases env.mainSendFail k <;> rfl

/-- The agent names resolved from the dict. -/
theorem agentOf_names :
    (agentOf "researcher").name = "Primary Researcher" ∧
    (agentOf "analyst").name = "Data Analyst" ∧
    (agentOf "news_tracker").name = "News Tracker" ∧
    (agentOf "synthesizer").name = "Information Synthesizer" := by
  refine ⟨rfl, rfl, rfl, rfl⟩

/-- Under a fully healthy websocket, the trace of a research run
decomposes as: the start notification, an interleaving of the three
phase-1 task traces, the join, the synthesis task trace, and the
completion notification. -/
theorem conduct_trace_noFail (env : Env) (topic focus : String)
    (sessions : String → Option Session) (session_id : String) (now : Nat)
    (h : Env.noSendFail env) :
    (conduct_realtime_research env topic focus sessions session_id now).1 =
      Event.send (Msg.researchStarted session_id topic "Research team activated") ::
      interleave3 env.sched (runTask env topic focus "researcher").1
        (runTask env topic focus "analyst").1
        (runTask env topic focus "news_tracker").1 ++
      Event.join :: (synthTask env topic focus).1 ++
      [Event.send (Msg.researchCompleted session_id "All research completed successfully")] := by
  obtain ⟨v, hv⟩ := (research_async_noFail (agentOf "synthesizer").name
    (env.oracle "synthesizer") (env.taskSendFail "synthesizer")
    (synthQuery env topic focus) "synthesizer" (h.2 "synthesizer")).2
  have hv2 : (synthTask env topic focus).2 = Except.ok v := hv
  simp [conduct_realtime_research, h.1, hv2]

/-- `asyncio.gather` never returns inside an agent task: a
`research_async` trace contains no join event. -/
theorem join_not_in_task (name : String)
    (oracle : String → Except String String) (sf : Nat → Option String)
    (q aid : String) : Event.join ∉ (research_async name oracle sf q aid).1 := by
  intro hj
  rcases research_async_events name oracle sf q aid Event.join hj with h | h
  · simp [isSend] at h
  · exact absurd h (by simp)

/-- Any invocation event found in a `research_async` trace carries that
call's agent name and query. -/
theorem invoke_in_task_eq (name : String)
    (oracle : String → Except String String) (sf : Nat → Option String)
    (q aid nm q2 : String)
    (h : Event.invoke nm q2 ∈ (research_async name oracle sf q aid).1) :
    nm = name ∧ q2 = q := by
  rcases research_async_events name oracle sf q aid _ h with h2 | h2
  · simp [isSend] at h2
  · simpa using h2

/-- Resolved name of the researcher agent. -/
@[simp] theorem agentOf_researcher_name :
    (agentOf "researcher").name = "Primary Researcher" := rfl

/-- Resolved name of the analyst agent. -/
@[simp] theorem agentOf_analyst_name :
    (agentOf "analyst").name = "Data Analyst" := rfl

/-- Resolved name of the news tracker agent. -/
@[simp] theorem agentOf_news_name :
    (agentOf "news_tracker").name = "News Tracker" := rfl

/-- Resolved name of the synthesizer agent. -/
@[simp] theorem agentOf_synth_name :
    (agentOf "synthesizer").name = "Information Synthesizer" := rfl

/-! Claim theorems. -/

/-- C2: for every exception raised while the agent performs its research
invocation (the LLM oracle returns `Except.error e`), `research_async`
catches the generic exception, sends one `agent_error` message over the
websocket, and returns the string `"Error in {agent name}: {exception
message}"` instead of re-raising; the trace shows exactly one LLM
invocation, so no retry or other recovery action is performed. -/
theorem research_async_error_handling (name : String)
    (oracle : String → Except String String) (sf : Nat → Option String)
    (q aid e : String) (h0 : sf 0 = none) (h1 : sf 1 = none)
    (he : oracle q = Except.error e) :
    research_async name oracle sf q aid =
      ([Event.send (Msg.agentStatus aid "researching" (name ++ " is researching...")),
        Event.invoke name q,
        Event.send (Msg.agentError aid ("Error in " ++ name ++ ": " ++ e))],
       Except.ok ("Error in " ++ name ++ ": " ++ e)) := by
  simp [research_async, exceptBlock, h0, h1, he]

/-- Witness for C2 at a concrete agent, oracle and failure schedule. -/
theorem research_async_error_handling_witness :
    ((fun _ : Nat => (none : Option String)) 0 = none) ∧
    research_async "Primary Researcher" (fun _ => Except.error "boom")
        (fun _ => none) "q" "researcher" =
      ([Event.send (Msg.agentStatus "researcher" "researching"
          ("Primary Researcher" ++ " is researching...")),
        Event.invoke "Primary Researcher" "q",
        Event.send (Msg.agentError "researcher"
          ("Error in " ++ "Primary Researcher" ++ ": " ++ "boom"))],
       Except.ok ("Error in " ++ "Primary Researcher" ++ ": " ++ "boom")) :=
  ⟨rfl, research_async_error_handling "Primary Researcher"
    (fun _ => Except.error "boom") (fun _ => none) "q" "researcher" "boom"
    rfl rfl rfl⟩

/-- C6: the repository consists of three near-duplicate prototypes with
pairwise distinct user interfaces — a Streamlit web form, the FastAPI
WebSocket live UI (the `app` of src/main.py), and a progress-bar UI. -/
theorem three_prototypes :
    repository_prototypes =
      [UIKind.streamlitForm, UIKind.fastapiWebSocket, UIKind.progressBar] ∧
    repository_prototypes.length = 3 ∧ repository_prototypes.Nodup ∧
    UIKind.fastapiWebSocket ∈ repository_prototypes ∧
    app.title = "Real-Time AI Research System" := by
  refine ⟨rfl, rfl, by decide, by decide, rfl⟩

/-- C7: a `start_research` message whose topic field is missing or empty
makes the endpoint send `{"type": "error", "message": "Topic is
required"}`, start no research task, and leave `active_sessions`
unchanged. -/
theorem endpoint_topic_required (sessions : String → Option Session)
    (m : InMsg) (timestamp : String) (hm : m.type = "start_research")
    (ht : m.topic = none ∨ m.topic = some "") :
    websocket_handle sessions m timestamp =
      ([Msg.errorReply "Topic is required"], none, sessions) := by
  rcases ht with ht | ht <;> simp [websocket_handle, hm, ht]

/-- Witness for C7 at a concrete message with an absent topic field. -/
theorem endpoint_topic_required_witness :
    websocket_handle noSessions
        { type := "start_research", topic := none, focus := some "f" } "ts" =
      ([Msg.errorReply "Topic is required"], none, noSessions) :=
  endpoint_topic_required noSessions
    { type := "start_research", topic := none, focus := some "f" } "ts"
    rfl (Or.inl rfl)

/-- C9: handling a client disconnect deletes that connection's
`session_id` from `active_sessions` if present — afterwards no entry for
it remains — and touches no other entry. -/
theorem disconnect_cleans_session (sessions : String → Option Session)
    (session_id : String) :
    handle_disconnect sessions session_id session_id = none ∧
    ∀ k, k ≠ session_id → handle_disconnect sessions session_id k = sessions k := by
  constructor
  · unfold handle_disconnect
    by_cases h : (sessions session_id).isSome
    · simp [h]
    · simp [h]
      exact Option.not_isSome_iff_eq_none.mp h
  · intro k hk
    unfold handle_disconnect
    by_cases h : (sessions session_id).isSome <;>
      simp [h, Function.update_noteq hk]

/-- Witness for C9 at a concrete sessions map and ids. -/
theorem disconnect_cleans_session_witness :
    handle_disconnect someSessions "a" "a" = none ∧
    handle_disconnect someSessions "a" "b" = someSessions "b" :=
  ⟨(disconnect_cleans_session someSessions "a").1,
   (disconnect_cleans_session someSessions "a").2 "b" (by decide)⟩

/-- C8: after the join, a phase-1 agent whose gathered result is an
exception gets no entry in the session's results dict, and is
consequently represented by the literal `"No data"` in the synthesis
prompt. -/
theorem exception_results_not_stored (env : Env) (topic focus aid e : String)
    (ha : aid = "researcher" ∨ aid = "analyst" ∨ aid = "news_tracker")
    (he : (runTask env topic focus aid).2 = Except.error e) :
    storedResults env topic focus aid = none ∧
    ∃ b a n, synthQuery env topic focus = synthesis_query topic b a n ∧
      (aid = "researcher" → b = "No data") ∧
      (aid = "analyst" → a = "No data") ∧
      (aid = "news_tracker" → n = "No data") := by
  have hnone : storedResults env topic focus aid = none := by
    rcases ha with ha | ha | ha <;> subst ha <;>
      rcases hR : (runTask env topic focus "researcher").2 with eR | vR <;>
      rcases hA : (runTask env topic focus "analyst").2 with eA | vA <;>
      rcases hN : (runTask env topic focus "news_tracker").2 with eN | vN <;>
      simp_all [storedResults, storeResult, Function.update_same,
        Function.update_noteq]
  refine ⟨hnone, (storedResults env topic focus "researcher").getD "No data",
    (storedResults env topic focus "analyst").getD "No data",
    (storedResults env topic focus "news_tracker").getD "No data",
    rfl, ?_, ?_, ?_⟩ <;>
    intro h2 <;> subst h2 <;> rw [hnone] <;> rfl

/-- Witness for C8: in `testEnvErr` the researcher task ends in a
propagated exception, so its result is absent and replaced by
`"No data"`. -/
theorem exception_results_not_stored_witness :
    storedResults testEnvErr "t" "" "researcher" = none ∧
    ∃ b a n, synthQuery testEnvErr "t" "" = synthesis_query "t" b a n ∧
      ("researcher" = "researcher" → b = "No data") ∧
      ("researcher" = "analyst" → a = "No data") ∧
      ("researcher" = "news_tracker" → n = "No data") :=
  exception_results_not_stored testEnvErr "t" "" "researcher" "ws down"
    (Or.inl rfl) rfl

/-- C4: the team consists of exactly four scripted agents — the
background researcher, the analyst, the news tracker and the
synthesizer — each being a templated system-prompt string over its name
and role; and a research run on a user-supplied topic stores the
synthesizer's output string in the session results as the report. -/
theorem team_four_agents_report :
    _create_agents.map Prod.fst =
      ["researcher", "analyst", "news_tracker", "synthesizer"] ∧
    _create_agents.map (fun p => p.2.name) =
      ["Primary Researcher", "Data Analyst", "News Tracker",
       "Information Synthesizer"] ∧
    (∀ p ∈ _create_agents, p.2.systemMessage = system_message p.2.name p.2.role) ∧
    ∀ (env : Env) (topic focus : String) (sessions : String → Option Session)
      (session_id : String) (now : Nat), Env.noSendFail env →
      ∃ (sess : Session) (out : String),
        (conduct_realtime_research env topic focus sessions session_id now).2
            session_id = some sess ∧
        sess.results "synthesizer" = some out := by
  refine ⟨rfl, rfl, fun p _ => rfl, ?_⟩
  intro env topic focus sessions session_id now h
  obtain ⟨v, hv⟩ := (research_async_noFail (agentOf "synthesizer").name
    (env.oracle "synthesizer") (env.taskSendFail "synthesizer")
    (synthQuery env topic focus) "synthesizer" (h.2 "synthesizer")).2
  have hv2 : (synthTask env topic focus).2 = Except.ok v := hv
  refine ⟨{ topic := topic, focus := focus, start_time := now,
            results := Function.update (storedResults env topic focus)
              "synthesizer" (some v) }, v, ?_, ?_⟩
  · simp [conduct_realtime_research, h.1, hv2, Function.update_same]
  · simp [Function.update_same]

/-- Witness for C4's run part in the healthy concrete environment. -/
theorem team_four_agents_report_witness :
    Env.noSendFail testEnv ∧
    ∃ (sess : Session) (out : String),
      (conduct_realtime_research testEnv "t" "" noSessions "s" 0).2 "s" =
        some sess ∧
      sess.results "synthesizer" = some out :=
  ⟨⟨fun _ => rfl, fun _ _ => rfl⟩,
   team_four_agents_report.2.2.2 testEnv "t" "" noSessions "s" 0
     ⟨fun _ => rfl, fun _ _ => rfl⟩⟩

/-- C5: a research run mutates only the `active_sessions` entry keyed by
its own `session_id` — every other key is untouched — and, apart from
that entry, its observable behaviour (the trace of sends and LLM calls)
does not depend on the pre-existing `active_sessions` contents: no
stored result of an earlier request is reused, every run performs its
own LLM calls. -/
theorem conduct_frame_condition (env : Env) (topic focus : String)
    (sessions sessionsB : String → Option Session) (session_id : String)
    (now : Nat) (k : String) (hk : k ≠ session_id) :
    (conduct_realtime_research env topic focus sessions session_id now).2 k =
      sessions k ∧
    (conduct_realtime_research env topic focus sessions session_id now).1 =
      (conduct_realtime_research env topic focus sessionsB session_id now).1 := by
  constructor
  · unfold conduct_realtime_research
    cases h0 : env.mainSendFail 0 with
    | none =>
      cases hS : (synthTask env topic focus).2 with
      | error e => simp [mainExcept_snd, Function.update_noteq hk]
      | ok v =>
        cases h1 : env.mainSendFail 1 with
        | none => simp [Function.update_noteq hk]
        | some e => simp [mainExcept_snd, Function.update_noteq hk]
    | some e => simp [mainExcept_snd, Function.update_noteq hk]
  · unfold conduct_realtime_research
    cases h0 : env.mainSendFail 0 with
    | none =>
      cases hS : (synthTask env topic focus).2 with
      | error e => exact mainExcept_fst _ _ _ _ _ _ _
      | ok v =>
        cases h1 : env.mainSendFail 1 with
        | none => simp
        | some e => exact mainExcept_fst _ _ _ _ _ _ _
    | some e => exact mainExcept_fst _ _ _ _ _ _ _

/-- Witness for C5 at concrete inputs and two distinct sessions maps. -/
theorem conduct_frame_condition_witness :
    (conduct_realtime_research testEnv "t" "" noSessions "s" 0).2 "other" =
      noSessions "other" ∧
    (conduct_realtime_research testEnv "t" "" noSessions "s" 0).1 =
      (conduct_realtime_research testEnv "t" "" someSessions "s" 0).1 :=
  conduct_frame_condition testEnv "t" "" noSessions someSessions "s" 0 "other"
    (by decide)

/-- C1: for every topic and focus input (and every interleaving of the
three concurrently created research tasks), the run's trace splits at
the `asyncio.gather` join: the LLM invocations of the researcher, the
analyst and the news tracker all occur before the join, and the single
synthesis LLM call occurs strictly after it. -/
theorem conduct_join_before_synthesis (env : Env) (topic focus : String)
    (sessions : String → Option Session) (session_id : String) (now : Nat)
    (h : Env.noSendFail env) :
    JoinBeforeSynthesis env topic focus sessions session_id now := by
  obtain ⟨hmain, htask⟩ := h
  refine ⟨Event.send (Msg.researchStarted session_id topic "Research team activated") ::
      interleave3 env.sched (runTask env topic focus "researcher").1
        (runTask env topic focus "analyst").1
        (runTask env topic focus "news_tracker").1,
    (synthTask env topic focus).1 ++
      [Event.send (Msg.researchCompleted session_id "All research completed successfully")],
    ?_, ?_, ?_, ?_, ?_, ?_, ?_, ?_⟩
  · rw [conduct_trace_noFail env topic focus sessions session_id now ⟨hmain, htask⟩]
    simp
  · intro hj
    rcases List.mem_cons.mp hj with hj | hj
    · exact absurd hj (by simp)
    · rcases (interleave3_mem _ _ _ _ _).mp hj with hj | hj | hj <;>
        exact join_not_in_task _ _ _ _ _ hj
  · intro hj
    rcases List.mem_append.mp hj with hj | hj
    · exact join_not_in_task _ _ _ _ _ hj
    · simp at hj
  · refine ⟨(List.lookup "researcher" (research_tasks topic focus)).getD "",
      List.mem_cons_of_mem _ ?_⟩
    refine (interleave3_mem _ _ _ _ _).mpr (Or.inl ?_)
    have hmem := research_async_invoke_mem (agentOf "researcher").name
      (env.oracle "researcher") (env.taskSendFail "researcher")
      ((List.lookup "researcher" (research_tasks topic focus)).getD "")
      "researcher" (htask "researcher")
    simpa [runTask] using hmem
  · refine ⟨(List.lookup "analyst" (research_tasks topic focus)).getD "",
      List.mem_cons_of_mem _ ?_⟩
    refine (interleave3_mem _ _ _ _ _).mpr (Or.inr (Or.inl ?_))
    have hmem := research_async_invoke_mem (agentOf "analyst").name
      (env.oracle "analyst") (env.taskSendFail "analyst")
      ((List.lookup "analyst" (research_tasks topic focus)).getD "")
      "analyst" (htask "analyst")
    simpa [runTask] using hmem
  · refine ⟨(List.lookup "news_tracker" (research_tasks topic focus)).getD "",
      List.mem_cons_of_mem _ ?_⟩
    refine (interleave3_mem _ _ _ _ _).mpr (Or.inr (Or.inr ?_))
    have hmem := research_async_invoke_mem (agentOf "news_tracker").name
      (env.oracle "news_tracker") (env.taskSendFail "news_tracker")
      ((List.lookup "news_tracker" (research_tasks topic focus)).getD "")
      "news_tracker" (htask "news_tracker")
    simpa [runTask] using hmem
  · intro q hq
    rcases List.mem_cons.mp hq with hq | hq
    · exact absurd hq (by simp)
    · rcases (interleave3_mem _ _ _ _ _).mp hq with hq | hq | hq
      · have h2 := (invoke_in_task_eq _ _ _ _ _ _ _ hq).1
        simp at h2
      · have h2 := (invoke_in_task_eq _ _ _ _ _ _ _ hq).1
        simp at h2
      · have h2 := (invoke_in_task_eq _ _ _ _ _ _ _ hq).1
        simp at h2
  · have hf := (research_async_noFail (agentOf "synthesizer").name
      (env.oracle "synthesizer") (env.taskSendFail "synthesizer")
      (synthQuery env topic focus) "synthesizer" (htask "synthesizer")).1
    rw [List.filter_append]
    simp only [synthTask]
    rw [hf]
    simp [isInvoke]

/-- Witness for C1 in the healthy concrete environment. -/
theorem conduct_join_before_synthesis_witness :
    Env.noSendFail testEnv ∧
    JoinBeforeSynthesis testEnv "t" "" noSessions "s" 0 :=
  ⟨⟨fun _ => rfl, fun _ _ => rfl⟩,
   conduct_join_before_synthesis testEnv "t" "" noSessions "s" 0
     ⟨fun _ => rfl, fun _ _ => rfl⟩⟩

/-- C3: the synthesis step issues exactly one more LLM call after the
three phase-1 calls, and its input prompt is the single templated
`synthesis_query` string concatenating the stored results of the
researcher, the analyst and the news tracker, with the literal
`"No data"` substituted for any agent absent from the session's
results. -/
theorem synthesis_single_call_prompt (env : Env) (topic focus : String)
    (sessions : String → Option Session) (session_id : String) (now : Nat)
    (h : Env.noSendFail env) :
    SingleSynthesisPrompt env topic focus sessions session_id now := by
  obtain ⟨hmain, htask⟩ := h
  refine ⟨Event.send (Msg.researchStarted session_id topic "Research team activated") ::
      interleave3 env.sched (runTask env topic focus "researcher").1
        (runTask env topic focus "analyst").1
        (runTask env topic focus "news_tracker").1,
    (synthTask env topic focus).1 ++
      [Event.send (Msg.researchCompleted session_id "All research completed successfully")],
    ?_, ?_, ?_⟩
  · rw [conduct_trace_noFail env topic focus sessions session_id now ⟨hmain, htask⟩]
    simp
  · have hR := (research_async_noFail (agentOf "researcher").name
      (env.oracle "researcher") (env.taskSendFail "researcher")
      ((List.lookup "researcher" (research_tasks topic focus)).getD "")
      "researcher" (htask "researcher")).1
    have hA := (research_async_noFail (agentOf "analyst").name
      (env.oracle "analyst") (env.taskSendFail "analyst")
      ((List.lookup "analyst" (research_tasks topic focus)).getD "")
      "analyst" (htask "analyst")).1
    have hN := (research_async_noFail (agentOf "news_tracker").name
      (env.oracle "news_tracker") (env.taskSendFail "news_tracker")
      ((List.lookup "news_tracker" (research_tasks topic focus)).getD "")
      "news_tracker" (htask "news_tracker")).1
    rw [List.countP_cons, interleave3_countP]
    simp only [List.countP_eq_length_filter, runTask]
    rw [hR, hA, hN]
    simp [isInvoke]
  · have hf := (research_async_noFail (agentOf "synthesizer").name
      (env.oracle "synthesizer") (env.taskSendFail "synthesizer")
      (synthQuery env topic focus) "synthesizer" (htask "synthesizer")).1
    rw [List.filter_append]
    simp only [synthTask]
    rw [hf]
    simp [isInvoke, synthQuery]

/-- Witness for C3 in the healthy concrete environment. -/
theorem synthesis_single_call_prompt_witness :
    Env.noSendFail testEnv ∧
    SingleSynthesisPrompt testEnv "t" "" noSessions "s" 0 :=
  ⟨⟨fun _ => rfl, fun _ _ => rfl⟩,
   synthesis_single_call_prompt testEnv "t" "" noSessions "s" 0
     ⟨fun _ => rfl, fun _ _ => rfl⟩⟩
